import Mathlib

/-!
Shallow embedding of the bento-order-system backend (src/models.py,
src/schemas.py, src/routers/customer.py, src/routers/store.py).

Conventions of the embedding:
* SQL rows become Lean structures; the database session becomes an explicit
  `Db` value (lists of rows).  Query chains (`filter` / `join` / `order_by` /
  `offset` / `limit`) become the corresponding list operations.
* `DateTime` values are modelled at day/hour granularity as `Timestamp`
  (an ordinal day number plus an hour-of-day in `Fin 24`); every date
  comparison made by the code (`today 00:00 .. today 23:59`, inclusive day
  ranges) only ever needs this granularity.
* Request handlers become pure functions `Db → ... → Except Err α`;
  `raise HTTPException(code, detail)` becomes `.error ⟨code, detail⟩`;
  mutating handlers additionally return the updated `Db`.
* Python `float` arithmetic in the dashboard is modelled over `ℚ`;
  `round(x, 2)` becomes `roundTo2` (round half to even, as Python does).
* Primary-key autoincrement is modelled by `freshOrderId` / `freshMenuId`
  (one more than the largest existing id).
-/

namespace Bento

/-- A timestamp at the granularity the code compares at: an ordinal day
number and an hour of day. -/
structure Timestamp where
  day : Int
  hour : Fin 24
deriving DecidableEq, Repr

/-- models.py `Menu` row (columns used by the handlers under verification). -/
structure Menu where
  id : Nat
  name : String
  price : Int
  description : Option String
  image_url : Option String
  is_available : Bool
  store_id : Nat
deriving DecidableEq, Repr

/-- models.py `User` row (columns used by the handlers under verification). -/
structure User where
  id : Nat
  username : String
  full_name : Option String
  role : String
  store_id : Option Nat
deriving DecidableEq, Repr

/-- models.py `Order` row.  `store_id` is `Option Nat`: the column is
declared NOT NULL, but `create_order` constructs the row without it, which
the embedding must be able to express. -/
structure Order where
  id : Nat
  user_id : Nat
  menu_id : Nat
  store_id : Option Nat
  quantity : Int
  total_price : Int
  status : String
  delivery_time : Option Nat
  notes : Option String
  ordered_at : Timestamp
deriving DecidableEq, Repr

/-- The relational state: the tables the verified handlers touch. -/
structure Db where
  menus : List Menu
  users : List User
  orders : List Order
deriving DecidableEq, Repr

/-- An HTTPException: status code and detail message. -/
structure Err where
  code : Nat
  detail : String
deriving DecidableEq, Repr

/-! ### schemas.py request bodies -/

/-- schemas.py `OrderCreate`: menu_id, quantity, optional delivery time and
notes, plus a (required) `store_id` field. -/
structure OrderCreate where
  menu_id : Nat
  store_id : Nat
  quantity : Int
  delivery_time : Option Nat
  notes : Option String
deriving DecidableEq, Repr

/-- The pydantic validation on `OrderCreate` (`menu_id ≥ 1`, `store_id ≥ 1`,
`quantity` between 1 and 10, notes at most 500 characters). -/
def OrderCreate.valid (r : OrderCreate) : Prop :=
  1 ≤ r.menu_id ∧ 1 ≤ r.store_id ∧ 1 ≤ r.quantity ∧ r.quantity ≤ 10 ∧
    (∀ s, r.notes = some s → s.length ≤ 500)

/-- schemas.py `MenuCreate` (name, price, description, image_url,
availability; the `store_id` field of the request is not used by
`create_menu`, which takes the caller's store). -/
structure MenuCreate where
  name : String
  price : Int
  description : Option String
  image_url : Option String
  is_available : Bool
  store_id : Nat
deriving DecidableEq, Repr

/-- schemas.py `MenuUpdate`: every field optional (partial update). -/
structure MenuUpdate where
  name : Option String
  price : Option Int
  description : Option String
  image_url : Option String
  is_available : Option Bool
deriving DecidableEq, Repr

/-- Modelled from the spec: the class `OrderStatus` is imported by
`update_order_status` (`from schemas import OrderStatus`) but is not present
under src/; only its caller is.  The spec's four-state variant (the latest,
also stated in `update_order_status`'s own docstring) is:
`pending → ready or cancelled`, `ready → completed`, `completed` and
`cancelled` allow no outgoing transition. -/
def OrderStatus.get_allowed_transitions (s : String) : List String :=
  if s = "pending" then ["ready", "cancelled"]
  else if s = "ready" then ["completed"]
  else []

/-! ### Helpers -/

/-- Look an order up by primary key (`query(Order).filter(Order.id == i).first()`). -/
def lookupOrder (db : Db) (i : Nat) : Option Order :=
  db.orders.find? (fun o => o.id == i)

/-- Look a menu up by primary key. -/
def lookupMenu (db : Db) (i : Nat) : Option Menu :=
  db.menus.find? (fun m => m.id == i)

/-- The base store-scoped order query `query(Order).filter(Order.store_id == store_id)`. -/
def storeOrders (db : Db) (s : Nat) : List Order :=
  db.orders.filter (fun o => o.store_id == some s)

/-- Restrict a database to the orders of one store (used to state tenant
isolation: a store-scoped endpoint must not look at any other order). -/
def restrictOrders (db : Db) (s : Nat) : Db :=
  { db with orders := db.orders.filter (fun o => o.store_id == some s) }

/-- The spec §3 data-model invariant: an order's `store_id` equals the
`store_id` of the menu it references. -/
def crossStoreConsistent (db : Db) : Prop :=
  ∀ o ∈ db.orders, ∀ m ∈ db.menus, o.menu_id = m.id → o.store_id = some m.store_id

/-- Autoincremented primary key for a new order. -/
def freshOrderId (db : Db) : Nat :=
  (db.orders.map (fun o => o.id)).foldr max 0 + 1

/-- Autoincremented primary key for a new menu. -/
def freshMenuId (db : Db) : Nat :=
  (db.menus.map (fun m => m.id)).foldr max 0 + 1

/-- Starts-with test on character lists. -/
def charsStartWith : List Char → List Char → Bool
  | [], _ => true
  | _ :: _, [] => false
  | a :: as, b :: bs => a == b && charsStartWith as bs

/-- Containment of one character list inside another. -/
def charsInside (needle : List Char) : List Char → Bool
  | [] => needle.isEmpty
  | b :: bs => charsStartWith needle (b :: bs) || charsInside needle bs

/-- SQL `LIKE`-with-wildcards match used via `Menu.name.contains(search)`:
substring containment. -/
def strContains (hay needle : String) : Bool :=
  charsInside needle.data hay.data

/-- SQL `ILIKE %q%`: case-insensitive substring containment. -/
def ilikeContains (hay needle : String) : Bool :=
  charsInside (needle.data.map Char.toLower) (hay.data.map Char.toLower)

/-- `ILIKE` on a nullable column: `NULL ILIKE pattern` is not true. -/
def ilikeContainsOpt (hay : Option String) (needle : String) : Bool :=
  match hay with
  | some h => ilikeContains h needle
  | none => false

/-- Insert into a list before the first element that is not `le`-below the
inserted one (helper for `sortBy`). -/
def insertBy {α : Type} (le : α → α → Bool) (a : α) : List α → List α
  | [] => [a]
  | b :: l => if le a b then a :: b :: l else b :: insertBy le a l

/-- Stable insertion sort by a boolean comparison: the model of SQL
`ORDER BY`. -/
def sortBy {α : Type} (le : α → α → Bool) : List α → List α
  | [] => []
  | a :: l => insertBy le a (sortBy le l)

/-- Total order on timestamps (day first, then hour), as SQL compares the
underlying datetimes. -/
def Timestamp.abs (t : Timestamp) : Int :=
  t.day * 24 + t.hour.val

/-- Python `round` to the nearest integer, half to even. -/
def roundHalfEven (x : ℚ) : Int :=
  let f := ⌊x⌋
  let r := x - (f : ℚ)
  if r < 1/2 then f
  else if 1/2 < r then f + 1
  else if f % 2 = 0 then f else f + 1

/-- Python `round(x, 2)`. -/
def roundTo2 (x : ℚ) : ℚ :=
  (roundHalfEven (x * 100) : ℚ) / 100

/-! ### customer.py -/

/-- Query parameters of `GET /customer/menus`. -/
structure MenuQuery where
  is_available : Option Bool
  price_min : Option Int
  price_max : Option Int
  search : Option String
  page : Nat
  per_page : Nat
deriving DecidableEq, Repr

/-- The filter `get_menus` builds: availability (the supplied flag, or
available-only when the flag is omitted), price range, name search. -/
def menuMatches (p : MenuQuery) (m : Menu) : Bool :=
  (match p.is_available with
   | some b => m.is_available == b
   | none => m.is_available == true) &&
  (match p.price_min with
   | some lo => lo ≤ m.price
   | none => true) &&
  (match p.price_max with
   | some hi => m.price ≤ hi
   | none => true) &&
  (match p.search with
   | some s => strContains m.name s
   | none => true)

/-- Response of `GET /customer/menus`. -/
structure MenuListResult where
  menus : List Menu
  total : Nat
deriving DecidableEq, Repr

/-- customer.py `get_menus` (GET /customer/menus): filter, count, paginate. -/
def getMenus (db : Db) (p : MenuQuery) : MenuListResult :=
  let filtered := db.menus.filter (menuMatches p)
  let total := filtered.length
  let offset := (p.page - 1) * p.per_page
  { menus := (filtered.drop offset).take p.per_page, total := total }

/-- customer.py `get_menu` (GET /customer/menus/{id}): the menu with that id
that is available, else 404. -/
def getMenu (db : Db) (menu_id : Nat) : Except Err Menu :=
  match db.menus.find? (fun m => m.id == menu_id && m.is_available) with
  | some m => .ok m
  | none => .error ⟨404, "Menu not found"⟩

/-- customer.py `create_order` (POST /customer/orders): find the referenced
menu among available menus (404 otherwise), compute
`total_price = menu.price * quantity`, and insert the new order with status
"pending".  The constructed row copies `user_id`, `menu_id`, `quantity`,
`total_price`, `delivery_time` and `notes` — and nothing else: in
particular no `store_id` is assigned (`store_id := none`), exactly as the
source builds `Order(...)` without a `store_id` keyword. -/
def createOrder (db : Db) (u : User) (req : OrderCreate) (now : Timestamp) :
    Except Err (Order × Db) :=
  match db.menus.find? (fun m => m.id == req.menu_id && m.is_available) with
  | none => .error ⟨404, "Menu not found or not available"⟩
  | some menu =>
    let o : Order :=
      { id := freshOrderId db
        user_id := u.id
        menu_id := req.menu_id
        store_id := none
        quantity := req.quantity
        total_price := menu.price * req.quantity
        status := "pending"
        delivery_time := req.delivery_time
        notes := req.notes
        ordered_at := now }
    .ok (o, { db with orders := db.orders ++ [o] })

/-- customer.py `cancel_order` (PUT /customer/orders/{id}/cancel): 404 when
the order is missing or not owned by the caller, 400 unless the status is
exactly "pending", otherwise set the status to "cancelled". -/
def cancelOrder (db : Db) (u : User) (order_id : Nat) :
    Except Err (Order × Db) :=
  match db.orders.find? (fun o => o.id == order_id && o.user_id == u.id) with
  | none => .error ⟨404, "Order not found"⟩
  | some o =>
    if o.status ≠ "pending" then
      .error ⟨400, "Only pending orders can be cancelled"⟩
    else
      let o' := { o with status := "cancelled" }
      let orders' := db.orders.map (fun x =>
        if x.id == order_id && x.user_id == u.id then
          { x with status := "cancelled" }
        else x)
      .ok (o', { db with orders := orders' })

/-! ### store.py -/

/-- Query parameters of `GET /store/orders` (the status filter is the list
produced by splitting the comma-separated `status` parameter; the date
bounds are the parsed `start_date` / `end_date` days). -/
structure OrderQuery where
  statusFilter : Option (List String)
  startDay : Option Int
  endDay : Option Int
  q : Option String
  sort : String
  page : Nat
  per_page : Nat
deriving DecidableEq, Repr

/-- One row of the `GET /store/orders` response: the order together with the
user and menu rows attached for response assembly. -/
structure OrderRow where
  order : Order
  user : Option User
  menu : Option Menu
deriving DecidableEq, Repr

/-- Response of `GET /store/orders`. -/
structure OrderListResult where
  orders : List OrderRow
  total : Nat
deriving DecidableEq, Repr

/-- The keyword filter of `get_all_orders`: inner-join the user and menu
rows and match `full_name ILIKE`, `username ILIKE` or `Menu.name ILIKE`. -/
def orderKeywordMatch (db : Db) (needle : String) (o : Order) : Bool :=
  match db.users.find? (fun v => v.id == o.user_id),
        db.menus.find? (fun m => m.id == o.menu_id) with
  | some v, some m =>
      ilikeContainsOpt v.full_name needle || ilikeContains v.username needle ||
        ilikeContains m.name needle
  | _, _ => false

/-- The conditional narrowing `if param is not None: query = query.filter(...)`. -/
def optNarrow {β : Type} (t : Option β) (g : β → Order → Bool) (l : List Order) : List Order :=
  match t with
  | some b => l.filter (g b)
  | none => l

/-- The sort comparison chosen by `get_all_orders`'s `sort` parameter
(newest / oldest by `ordered_at`, or by `total_price`). -/
def orderSortLe (sort : String) (a b : Order) : Bool :=
  if sort = "oldest" then a.ordered_at.abs ≤ b.ordered_at.abs
  else if sort = "price_high" then b.total_price ≤ a.total_price
  else if sort = "price_low" then a.total_price ≤ b.total_price
  else b.ordered_at.abs ≤ a.ordered_at.abs

/-- store.py `get_all_orders` (GET /store/orders): 400 without a store
membership; otherwise filter the caller's store's orders by status list,
date range (inclusive start day, inclusive end of end day), and keyword;
sort; count; paginate; and attach user and menu rows. -/
def getAllOrders (db : Db) (u : User) (p : OrderQuery) :
    Except Err OrderListResult :=
  match u.store_id with
  | none => .error ⟨400, "User is not associated with any store"⟩
  | some s =>
    let base := storeOrders db s
    let q1 := optNarrow p.statusFilter (fun sts => fun o => sts.contains o.status) base
    let q2 := optNarrow p.startDay (fun d => fun o => d ≤ o.ordered_at.day) q1
    let q3 := optNarrow p.endDay (fun d => fun o => o.ordered_at.day ≤ d) q2
    let q4 := optNarrow p.q (fun needle => orderKeywordMatch db needle) q3
    let sorted := sortBy (orderSortLe p.sort) q4
    let total := sorted.length
    let pageOrders := (sorted.drop ((p.page - 1) * p.per_page)).take p.per_page
    let rows := pageOrders.map (fun o =>
      { order := o
        user := db.users.find? (fun v => v.id == o.user_id)
        menu := db.menus.find? (fun m => m.id == o.menu_id) })
    .ok { orders := rows, total := total }

/-- The detail message of an invalid transition, as the f-string builds it:
it names the current status, the requested status, and the allowed list
(rendered as Python renders a list of strings). -/
def invalidTransitionDetail (cur new : String) : String :=
  let quote := String.singleton (Char.ofNat 39)
  let allowed := OrderStatus.get_allowed_transitions cur
  "Invalid status transition from " ++ quote ++ cur ++ quote ++ " to " ++
    quote ++ new ++ quote ++ ". Allowed: [" ++
    String.intercalate ", " (allowed.map (fun a => quote ++ a ++ quote)) ++ "]"

/-- store.py `update_order_status` (PUT /store/orders/{id}/status): 400
without a store membership; 404 when no order with that id belongs to the
caller's store; 400 with a message naming the attempted and allowed
transitions when the requested status is not in
`OrderStatus.get_allowed_transitions(order.status)`; otherwise set the
status. -/
def updateOrderStatus (db : Db) (u : User) (order_id : Nat)
    (new_status : String) : Except Err (Order × Db) :=
  match u.store_id with
  | none => .error ⟨400, "User is not associated with any store"⟩
  | some s =>
    match db.orders.find? (fun o => o.id == order_id && o.store_id == some s) with
    | none => .error ⟨404, "Order not found"⟩
    | some o =>
      if (OrderStatus.get_allowed_transitions o.status).contains new_status then
        let o' := { o with status := new_status }
        let orders' := db.orders.map (fun x =>
          if x.id == order_id && x.store_id == some s then
            { x with status := new_status }
          else x)
        .ok (o', { db with orders := orders' })
      else
        .error ⟨400, invalidTransitionDetail o.status new_status⟩

/-- Dashboard `yesterday_comparison` block. -/
structure YesterdayComparison where
  orders_change : Int
  orders_change_percent : ℚ
  revenue_change : Int
  revenue_change_percent : ℚ
deriving DecidableEq, Repr

/-- Dashboard `popular_menus` entry. -/
structure PopularMenu where
  menu_id : Nat
  menu_name : String
  order_count : Nat
  total_revenue : Int
deriving DecidableEq, Repr

/-- Dashboard `hourly_orders` entry. -/
structure HourlyOrderData where
  hour : Nat
  order_count : Nat
deriving DecidableEq, Repr

/-- Dashboard response (`OrderSummary`, simplified four-status variant the
handler returns). -/
structure OrderSummary where
  total_orders : Nat
  pending_orders : Nat
  ready_orders : Nat
  completed_orders : Nat
  cancelled_orders : Nat
  total_sales : Int
  today_revenue : Int
  average_order_value : ℚ
  yesterday_comparison : YesterdayComparison
  popular_menus : List PopularMenu
  hourly_orders : List HourlyOrderData
deriving DecidableEq, Repr

/-- The orders of store `s` placed on day `d` (the query
`store_id == s ∧ day 00:00 ≤ ordered_at ≤ day 23:59:59.999999`). -/
def dayStoreOrders (db : Db) (s : Nat) (d : Int) : List Order :=
  (storeOrders db s).filter (fun o => o.ordered_at.day == d)

/-- Sum of `total_price` over a list of orders. -/
def revenueOf (l : List Order) : Int :=
  (l.map (fun o => o.total_price)).sum

/-- The `popular_menus` query of the dashboard: today's non-cancelled orders
of the store, inner-joined with menus, grouped by `(menu_id, Menu.name)`,
with order count and revenue sum, sorted by count descending, top 3.
(Tie order among equal counts is unspecified in SQL; the model keeps the
first-occurrence order, which the stable sort preserves.) -/
def popularMenus (db : Db) (s : Nat) (today : Int) : List PopularMenu :=
  let sel := (dayStoreOrders db s today).filter (fun o => o.status != "cancelled")
  let mids := (sel.map (fun o => o.menu_id)).dedup
  let entries := mids.filterMap (fun mid =>
    (db.menus.find? (fun m => m.id == mid)).map (fun m =>
      { menu_id := mid
        menu_name := m.name
        order_count := sel.countP (fun o => o.menu_id == mid)
        total_revenue := revenueOf (sel.filter (fun o => o.menu_id == mid)) }))
  (sortBy (fun a b => b.order_count ≤ a.order_count) entries).take 3

/-- store.py `get_dashboard` (GET /store/dashboard): 400 without a store
membership; otherwise aggregate today's orders of the caller's store
(counts per status, sales excluding cancelled, rounded average order value,
day-over-day comparison with guarded divisions, popular menus, and the
24-entry hourly histogram over all of today's orders). -/
def getDashboard (db : Db) (u : User) (today : Int) :
    Except Err OrderSummary :=
  match u.store_id with
  | none => .error ⟨400, "User is not associated with any store"⟩
  | some s =>
    let today_orders := dayStoreOrders db s today
    let total_orders := today_orders.length
    let cancelled_orders := today_orders.countP (fun o => o.status == "cancelled")
    let total_sales := revenueOf (today_orders.filter (fun o => o.status != "cancelled"))
    let completed_order_count := total_orders - cancelled_orders
    let average_order_value : ℚ :=
      if 0 < completed_order_count then
        (total_sales : ℚ) / (completed_order_count : ℚ)
      else 0
    let yesterday_orders := dayStoreOrders db s (today - 1)
    let yesterday_orders_count := yesterday_orders.length
    let yesterday_revenue :=
      revenueOf (yesterday_orders.filter (fun o => o.status != "cancelled"))
    let orders_change : Int := (total_orders : Int) - (yesterday_orders_count : Int)
    let orders_change_percent : ℚ :=
      if 0 < yesterday_orders_count then
        (orders_change : ℚ) / (yesterday_orders_count : ℚ) * 100
      else 0
    let revenue_change := total_sales - yesterday_revenue
    let revenue_change_percent : ℚ :=
      if 0 < yesterday_revenue then
        (revenue_change : ℚ) / (yesterday_revenue : ℚ) * 100
      else 0
    .ok
      { total_orders := total_orders
        pending_orders := today_orders.countP (fun o => o.status == "pending")
        ready_orders := today_orders.countP (fun o => o.status == "ready")
        completed_orders := today_orders.countP (fun o => o.status == "completed")
        cancelled_orders := cancelled_orders
        total_sales := total_sales
        today_revenue := total_sales
        average_order_value := roundTo2 average_order_value
        yesterday_comparison :=
          { orders_change := orders_change
            orders_change_percent := roundTo2 orders_change_percent
            revenue_change := revenue_change
            revenue_change_percent := roundTo2 revenue_change_percent }
        popular_menus := popularMenus db s today
        hourly_orders := (List.range 24).map (fun h =>
          { hour := h
            order_count := today_orders.countP (fun o => o.ordered_at.hour.val == h) }) }

/-- Response of `GET /store/dashboard/weekly-sales` (dates are day
numbers). -/
structure WeeklySales where
  labels : List Int
  data : List Int
deriving DecidableEq, Repr

/-- store.py `get_weekly_sales`: for each of the last 7 days (oldest first),
the sum of non-cancelled `total_price` of the caller's store, 0 for days
with no orders. -/
def getWeeklySales (db : Db) (u : User) (today : Int) :
    Except Err WeeklySales :=
  match u.store_id with
  | none => .error ⟨400, "User is not associated with any store"⟩
  | some s =>
    let days := (List.range 7).map (fun i => today - 6 + (i : Int))
    .ok
      { labels := days
        data := days.map (fun d =>
          revenueOf ((dayStoreOrders db s d).filter (fun o => o.status != "cancelled"))) }

/-- Sales report: one day's row. -/
structure DailySalesReport where
  date : Int
  total_orders : Nat
  total_sales : Int
  popular_menu : Option String
deriving DecidableEq, Repr

/-- Sales report: one menu's row. -/
structure MenuSalesReport where
  menu_id : Nat
  menu_name : String
  total_quantity : Int
  total_sales : Int
deriving DecidableEq, Repr

/-- Response of `GET /store/reports/sales`. -/
structure SalesReport where
  start_date : Int
  end_date : Int
  daily_reports : List DailySalesReport
  menu_reports : List MenuSalesReport
  total_sales : Int
  total_orders : Nat
deriving DecidableEq, Repr

/-- The name of the menu an order joins to (inner join on `menu_id`). -/
def joinedMenuName (db : Db) (o : Order) : Option String :=
  (db.menus.find? (fun m => m.id == o.menu_id)).map (fun m => m.name)

/-- The per-day popular menu of the sales report: non-cancelled orders of
the store on that day, joined with menus, grouped by `Menu.name`, summing
quantity, highest first. -/
def dayPopularMenu (db : Db) (s : Nat) (d : Int) : Option String :=
  let sel := (dayStoreOrders db s d).filter (fun o => o.status != "cancelled")
  let names := (sel.filterMap (joinedMenuName db)).dedup
  let rows := names.map (fun n =>
    (n, ((sel.filter (fun o => joinedMenuName db o == some n)).map
          (fun o => o.quantity)).sum))
  ((sortBy (fun a b => b.2 ≤ a.2) rows).head?).map (fun r => r.1)

/-- store.py `get_sales_report` (GET /store/reports/sales), with the date
range already parsed to day numbers: per-day counts, sales and popular
menu; per-menu quantity and sales over the whole range (sorted by sales
descending); and range totals.  Every query is scoped to the caller's
store and excludes cancelled orders. -/
def getSalesReport (db : Db) (u : User) (startDay endDay : Int) :
    Except Err SalesReport :=
  match u.store_id with
  | none => .error ⟨400, "User is not associated with any store"⟩
  | some s =>
    let nDays := (endDay - startDay + 1).toNat
    let days := (List.range nDays).map (fun i => startDay + (i : Int))
    let daily := days.map (fun d =>
      let sel := (dayStoreOrders db s d).filter (fun o => o.status != "cancelled")
      { date := d
        total_orders := sel.length
        total_sales := revenueOf sel
        popular_menu := dayPopularMenu db s d })
    let rangeSel := (storeOrders db s).filter (fun o =>
      startDay ≤ o.ordered_at.day && o.ordered_at.day ≤ endDay &&
        o.status != "cancelled")
    let mids := (rangeSel.map (fun o => o.menu_id)).dedup
    let menuRows := mids.filterMap (fun mid =>
      (db.menus.find? (fun m => m.id == mid)).map (fun m =>
        { menu_id := mid
          menu_name := m.name
          total_quantity := ((rangeSel.filter (fun o => o.menu_id == mid)).map
            (fun o => o.quantity)).sum
          total_sales := revenueOf (rangeSel.filter (fun o => o.menu_id == mid)) }))
    .ok
      { start_date := startDay
        end_date := endDay
        daily_reports := daily
        menu_reports := sortBy (fun a b => b.total_sales ≤ a.total_sales) menuRows
        total_sales := revenueOf rangeSel
        total_orders := rangeSel.length }

/-- store.py `create_menu`: insert a menu tied to the caller's store
(`store_id` taken from the current user, not from the request body). -/
def createMenu (db : Db) (u : User) (req : MenuCreate) :
    Except Err (Menu × Db) :=
  match u.store_id with
  | none => .error ⟨400, "User is not associated with any store"⟩
  | some s =>
    let m : Menu :=
      { id := freshMenuId db
        name := req.name
        price := req.price
        description := req.description
        image_url := req.image_url
        is_available := req.is_available
        store_id := s }
    .ok (m, { db with menus := db.menus ++ [m] })

/-- Apply a `MenuUpdate` to a menu row: only the provided fields change
(`exclude_unset` semantics). -/
def applyMenuUpdate (m : Menu) (upd : MenuUpdate) : Menu :=
  { m with
    name := upd.name.getD m.name
    price := upd.price.getD m.price
    description := (upd.description.map some).getD m.description
    image_url := (upd.image_url.map some).getD m.image_url
    is_available := upd.is_available.getD m.is_available }

/-- store.py `update_menu` (PUT /store/menus/{id}): 404 when the menu is
missing or not of the caller's store; otherwise apply the provided fields.
No order row is touched. -/
def updateMenu (db : Db) (u : User) (menu_id : Nat) (upd : MenuUpdate) :
    Except Err (Menu × Db) :=
  match u.store_id with
  | none => .error ⟨400, "User is not associated with any store"⟩
  | some s =>
    match db.menus.find? (fun m => m.id == menu_id && m.store_id == s) with
    | none => .error ⟨404, "Menu not found"⟩
    | some m =>
      let m' := applyMenuUpdate m upd
      let menus' := db.menus.map (fun x =>
        if x.id == menu_id && x.store_id == s then applyMenuUpdate x upd else x)
      .ok (m', { db with menus := menus' })

/-- store.py `delete_menu` (DELETE /store/menus/{id}): 404 when the menu is
missing or not of the caller's store; soft-delete (set unavailable) when
any order references it, else remove the row. -/
def deleteMenu (db : Db) (u : User) (menu_id : Nat) : Except Err Db :=
  match u.store_id with
  | none => .error ⟨400, "User is not associated with any store"⟩
  | some s =>
    match db.menus.find? (fun m => m.id == menu_id && m.store_id == s) with
    | none => .error ⟨404, "Menu not found"⟩
    | some _ =>
      if (db.orders.find? (fun o => o.menu_id == menu_id)).isSome then
        let menus' := db.menus.map (fun x =>
          if x.id == menu_id && x.store_id == s then
            { x with is_available := false }
          else x)
        .ok { db with menus := menus' }
      else
        .ok { db with menus := db.menus.filter (fun x => !(x.id == menu_id && x.store_id == s)) }

/-! ### The mutating operations, as one step type -/

/-- A mutating API call: the operations that can change orders or menus. -/
inductive Op where
  | create (u : User) (req : OrderCreate) (now : Timestamp)
  | cancel (u : User) (order_id : Nat)
  | updStatus (u : User) (order_id : Nat) (new_status : String)
  | newMenu (u : User) (req : MenuCreate)
  | updMenu (u : User) (menu_id : Nat) (upd : MenuUpdate)
  | delMenu (u : User) (menu_id : Nat)

/-- Run one mutating call against the database; a failed call leaves the
database unchanged (the transaction rolls back). -/
def applyOp (db : Db) : Op → Db
  | .create u req now =>
    match createOrder db u req now with
    | .ok (_, db') => db'
    | .error _ => db
  | .cancel u i =>
    match cancelOrder db u i with
    | .ok (_, db') => db'
    | .error _ => db
  | .updStatus u i st =>
    match updateOrderStatus db u i st with
    | .ok (_, db') => db'
    | .error _ => db
  | .newMenu u req =>
    match createMenu db u req with
    | .ok (_, db') => db'
    | .error _ => db
  | .updMenu u i upd =>
    match updateMenu db u i upd with
    | .ok (_, db') => db'
    | .error _ => db
  | .delMenu u i =>
    match deleteMenu db u i with
    | .ok db' => db'
    | .error _ => db

/-- Orders table primary-key uniqueness (the PK constraint). -/
def ordersNodup (db : Db) : Prop :=
  (db.orders.map (fun o => o.id)).Nodup

/-! ### Lemmas about the list helpers -/

theorem mem_insertBy {α : Type} (le : α → α → Bool) (a x : α) (l : List α) :
    x ∈ insertBy le a l ↔ x = a ∨ x ∈ l := by
  induction l with
  | nil => simp [insertBy]
  | cons b t ih =>
    simp only [insertBy]
    cases hab : le a b with
    | true => simp [List.mem_cons]
    | false => simp [List.mem_cons, ih]; tauto

theorem mem_sortBy {α : Type} (le : α → α → Bool) (x : α) (l : List α) :
    x ∈ sortBy le l ↔ x ∈ l := by
  induction l with
  | nil => simp [sortBy]
  | cons a t ih => simp [sortBy, mem_insertBy, ih]

theorem sum_map_add {α : Type} (f g : α → Nat) (l : List α) :
    (l.map (fun x => f x + g x)).sum = (l.map f).sum + (l.map g).sum := by
  induction l with
  | nil => simp
  | cons a t ih => simp [ih]; omega

theorem sum_indicator_of_ge {v n : Nat} (h : n ≤ v) :
    ((List.range n).map (fun h => if v == h then 1 else 0)).sum = 0 := by
  apply List.sum_eq_zero
  intro x hx
  rcases List.mem_map.mp hx with ⟨i, hi, rfl⟩
  have : i < n := List.mem_range.mp hi
  have : v ≠ i := by omega
  simp [this]

theorem sum_indicator_of_lt {v n : Nat} (h : v < n) :
    ((List.range n).map (fun h => if v == h then 1 else 0)).sum = 1 := by
  induction n with
  | zero => omega
  | succ n ih =>
    rw [List.range_succ, List.map_append, List.sum_append]
    by_cases hv : v = n
    · subst hv
      rw [sum_indicator_of_ge (le_refl v)]
      simp
    · have hvn : v < n := by omega
      rw [ih hvn]
      have : v ≠ n := hv
      simp [this]

theorem countP_hour_buckets (l : List Order) (n : Nat)
    (h : ∀ o ∈ l, o.ordered_at.hour.val < n) :
    ((List.range n).map (fun h => l.countP (fun o => o.ordered_at.hour.val == h))).sum
      = l.length := by
  induction l with
  | nil => simp [List.countP_nil]
  | cons o t ih =>
    have hrw : (List.range n).map
        (fun hh => (o :: t).countP (fun x => x.ordered_at.hour.val == hh))
        = (List.range n).map (fun hh =>
            t.countP (fun x => x.ordered_at.hour.val == hh) +
              if o.ordered_at.hour.val == hh then 1 else 0) := by
      apply List.map_congr_left
      intro hh _
      rw [List.countP_cons]
    rw [hrw, sum_map_add]
    rw [ih (fun x hx => h x (List.mem_cons_of_mem o hx))]
    rw [sum_indicator_of_lt (h o (List.mem_cons_self o t))]
    simp

theorem le_foldr_max (l : List Nat) (x : Nat) (h : x ∈ l) :
    x ≤ l.foldr max 0 := by
  induction l with
  | nil => cases h
  | cons a t ih =>
    rcases List.mem_cons.mp h with rfl | hx
    · exact le_max_left _ _
    · exact le_trans (ih hx) (le_max_right _ _)

theorem freshOrderId_not_mem (db : Db) (o : Order) (h : o ∈ db.orders) :
    o.id ≠ freshOrderId db := by
  have : o.id ≤ (db.orders.map (fun x => x.id)).foldr max 0 :=
    le_foldr_max _ _ (List.mem_map_of_mem _ h)
  unfold freshOrderId
  omega

theorem find?_map_of_pred_inv {α : Type} {p : α → Bool} {f : α → α}
    (hf : ∀ x, p (f x) = p x) (l : List α) :
    (l.map f).find? p = (l.find? p).map f := by
  induction l with
  | nil => rfl
  | cons a t ih =>
    cases hp : p a with
    | true =>
      rw [List.map_cons, List.find?_cons_of_pos _ (by rw [hf]; exact hp),
        List.find?_cons_of_pos _ hp]
      rfl
    | false =>
      rw [List.map_cons, List.find?_cons_of_neg _ (by rw [hf]; simp [hp]),
        List.find?_cons_of_neg _ (by simp [hp])]
      exact ih

theorem nodup_id_unique {l : List Order} (hn : (l.map (fun o => o.id)).Nodup)
    {a b : Order} (ha : a ∈ l) (hb : b ∈ l) (hid : a.id = b.id) : a = b := by
  exact List.inj_on_of_nodup_map hn ha hb hid

theorem find?_append_left {α : Type} (p : α → Bool) (l₁ l₂ : List α) (a : α)
    (h : l₁.find? p = some a) : (l₁ ++ l₂).find? p = some a := by
  induction l₁ with
  | nil => simp [List.find?] at h
  | cons x t ih =>
    cases hp : p x with
    | true =>
      rw [List.find?_cons_of_pos _ hp] at h
      rw [List.cons_append, List.find?_cons_of_pos _ hp]
      exact h
    | false =>
      rw [List.find?_cons_of_neg _ (by simp [hp])] at h
      rw [List.cons_append, List.find?_cons_of_neg _ (by simp [hp])]
      exact ih h

theorem setStatus_id (cond : Order → Bool) (st : String) (x : Order) :
    (if cond x then { x with status := st } else x).id = x.id := by
  cases h : cond x <;> simp [h]

/-! ### Preservation lemmas for the mutating operations -/

/-- Updating statuses (a map that only ever rewrites the `status` field)
keeps the id column unchanged, so primary-key uniqueness is preserved. -/
theorem nodup_setStatus (l : List Order) (cond : Order → Bool) (st : String)
    (hn : (l.map (fun o => o.id)).Nodup) :
    ((l.map (fun x => if cond x then { x with status := st } else x)).map
      (fun o => o.id)).Nodup := by
  rw [List.map_map]
  have : l.map ((fun o => o.id) ∘ fun x => if cond x then { x with status := st } else x)
      = l.map (fun o => o.id) := by
    apply List.map_congr_left
    intro x _
    exact setStatus_id cond st x
  rw [this]
  exact hn

/-! ### Branch characterizations of the mutating handlers -/

theorem createOrder_menu_missing (db : Db) (u : User) (req : OrderCreate)
    (now : Timestamp)
    (hm : db.menus.find? (fun m => m.id == req.menu_id && m.is_available) = none) :
    createOrder db u req now = .error ⟨404, "Menu not found or not available"⟩ := by
  simp [createOrder, hm]

/-- The row `create_order` inserts on success. -/
def newOrderRow (db : Db) (u : User) (req : OrderCreate) (now : Timestamp)
    (menu : Menu) : Order :=
  { id := freshOrderId db
    user_id := u.id
    menu_id := req.menu_id
    store_id := none
    quantity := req.quantity
    total_price := menu.price * req.quantity
    status := "pending"
    delivery_time := req.delivery_time
    notes := req.notes
    ordered_at := now }

theorem createOrder_ok (db : Db) (u : User) (req : OrderCreate)
    (now : Timestamp) (menu : Menu)
    (hm : db.menus.find? (fun m => m.id == req.menu_id && m.is_available) = some menu) :
    createOrder db u req now =
      .ok (newOrderRow db u req now menu,
        { db with orders := db.orders ++ [newOrderRow db u req now menu] }) := by
  simp [createOrder, hm, newOrderRow]

theorem cancelOrder_not_found (db : Db) (u : User) (oid : Nat)
    (hf : db.orders.find? (fun o => o.id == oid && o.user_id == u.id) = none) :
    cancelOrder db u oid = .error ⟨404, "Order not found"⟩ := by
  simp [cancelOrder, hf]

theorem cancelOrder_conflict (db : Db) (u : User) (oid : Nat) (o₀ : Order)
    (hf : db.orders.find? (fun o => o.id == oid && o.user_id == u.id) = some o₀)
    (hst : o₀.status ≠ "pending") :
    cancelOrder db u oid = .error ⟨400, "Only pending orders can be cancelled"⟩ := by
  simp [cancelOrder, hf, hst]

theorem cancelOrder_ok (db : Db) (u : User) (oid : Nat) (o₀ : Order)
    (hf : db.orders.find? (fun o => o.id == oid && o.user_id == u.id) = some o₀)
    (hst : o₀.status = "pending") :
    cancelOrder db u oid =
      .ok ({ o₀ with status := "cancelled" },
        { db with orders := db.orders.map (fun x =>
            if x.id == oid && x.user_id == u.id then { x with status := "cancelled" }
            else x) }) := by
  simp [cancelOrder, hf, hst]

theorem updateOrderStatus_no_store (db : Db) (u : User) (oid : Nat)
    (st : String) (hs : u.store_id = none) :
    updateOrderStatus db u oid st =
      .error ⟨400, "User is not associated with any store"⟩ := by
  simp [updateOrderStatus, hs]

theorem updateOrderStatus_not_found (db : Db) (u : User) (oid : Nat)
    (st : String) (s : Nat) (hs : u.store_id = some s)
    (hf : db.orders.find? (fun o => o.id == oid && o.store_id == some s) = none) :
    updateOrderStatus db u oid st = .error ⟨404, "Order not found"⟩ := by
  simp [updateOrderStatus, hs, hf]

theorem updateOrderStatus_invalid (db : Db) (u : User) (oid : Nat)
    (st : String) (s : Nat) (o₀ : Order) (hs : u.store_id = some s)
    (hf : db.orders.find? (fun o => o.id == oid && o.store_id == some s) = some o₀)
    (hall : (OrderStatus.get_allowed_transitions o₀.status).contains st = false) :
    updateOrderStatus db u oid st =
      .error ⟨400, invalidTransitionDetail o₀.status st⟩ := by
  simp [updateOrderStatus, hs, hf, hall]
  simpa using hall

theorem updateOrderStatus_ok (db : Db) (u : User) (oid : Nat)
    (st : String) (s : Nat) (o₀ : Order) (hs : u.store_id = some s)
    (hf : db.orders.find? (fun o => o.id == oid && o.store_id == some s) = some o₀)
    (hall : (OrderStatus.get_allowed_transitions o₀.status).contains st = true) :
    updateOrderStatus db u oid st =
      .ok ({ o₀ with status := st },
        { db with orders := db.orders.map (fun x =>
            if x.id == oid && x.store_id == some s then { x with status := st }
            else x) }) := by
  simp [updateOrderStatus, hs, hf, hall]
  simpa using hall

theorem createMenu_no_store (db : Db) (u : User) (req : MenuCreate)
    (hs : u.store_id = none) :
    createMenu db u req = .error ⟨400, "User is not associated with any store"⟩ := by
  simp [createMenu, hs]

theorem createMenu_ok (db : Db) (u : User) (req : MenuCreate) (s : Nat)
    (hs : u.store_id = some s) :
    (createMenu db u req).isOk = true ∧
      ∀ m db', createMenu db u req = .ok (m, db') → db'.orders = db.orders := by
  unfold createMenu
  rw [hs]
  constructor
  · rfl
  · intro m db' h
    cases h
    rfl

theorem updateMenu_orders (db : Db) (u : User) (mid : Nat) (upd : MenuUpdate) :
    ∀ m db', updateMenu db u mid upd = .ok (m, db') → db'.orders = db.orders := by
  intro m db' h
  cases hs : u.store_id with
  | none => simp [updateMenu, hs] at h
  | some s =>
    cases hf : db.menus.find? (fun x => x.id == mid && x.store_id == s) with
    | none => simp [updateMenu, hs, hf] at h
    | some m₀ =>
      simp [updateMenu, hs, hf, Prod.ext_iff] at h
      rw [← h.2]

theorem deleteMenu_orders (db : Db) (u : User) (mid : Nat) :
    ∀ db', deleteMenu db u mid = .ok db' → db'.orders = db.orders := by
  intro db' h
  cases hs : u.store_id with
  | none => simp [deleteMenu, hs] at h
  | some s =>
    cases hf : db.menus.find? (fun x => x.id == mid && x.store_id == s) with
    | none => simp [deleteMenu, hs, hf] at h
    | some m₀ =>
      cases hx : (db.orders.find? (fun o => o.menu_id == mid)).isSome with
      | true =>
        simp [deleteMenu, hs, hf, hx] at h
        rw [← h]
      | false =>
        simp [deleteMenu, hs, hf, hx] at h
        rw [← h]

/-! ### Preservation lemmas for the mutating operations -/

/-- The orders table after one mutating call: unchanged, extended by the
freshly inserted row, or mapped by a status rewrite whose trigger implies
the legality facts needed below. -/
theorem applyOp_orders_cases (db : Db) (op : Op) :
    (applyOp db op).orders = db.orders ∨
    (∃ u req now menu,
      op = .create u req now ∧
      db.menus.find? (fun m => m.id == req.menu_id && m.is_available) = some menu ∧
      (applyOp db op).orders = db.orders ++ [newOrderRow db u req now menu]) ∨
    (∃ u oid o₀,
      op = .cancel u oid ∧
      db.orders.find? (fun o => o.id == oid && o.user_id == u.id) = some o₀ ∧
      o₀.status = "pending" ∧
      (applyOp db op).orders = db.orders.map (fun x =>
        if x.id == oid && x.user_id == u.id then { x with status := "cancelled" }
        else x)) ∨
    (∃ u oid st s o₀,
      op = .updStatus u oid st ∧ u.store_id = some s ∧
      db.orders.find? (fun o => o.id == oid && o.store_id == some s) = some o₀ ∧
      (OrderStatus.get_allowed_transitions o₀.status).contains st = true ∧
      (applyOp db op).orders = db.orders.map (fun x =>
        if x.id == oid && x.store_id == some s then { x with status := st }
        else x)) := by
  cases op with
  | create u req now =>
    cases hm : db.menus.find? (fun m => m.id == req.menu_id && m.is_available) with
    | none =>
      left
      simp [applyOp, createOrder_menu_missing db u req now hm]
    | some menu =>
      right; left
      refine ⟨u, req, now, menu, rfl, hm, ?_⟩
      simp [applyOp, createOrder_ok db u req now menu hm]
  | cancel u oid =>
    cases hf : db.orders.find? (fun o => o.id == oid && o.user_id == u.id) with
    | none =>
      left
      simp [applyOp, cancelOrder_not_found db u oid hf]
    | some o₀ =>
      by_cases hst : o₀.status = "pending"
      · right; right; left
        refine ⟨u, oid, o₀, rfl, hf, hst, ?_⟩
        simp [applyOp, cancelOrder_ok db u oid o₀ hf hst]
      · left
        simp [applyOp, cancelOrder_conflict db u oid o₀ hf hst]
  | updStatus u oid st =>
    cases hs : u.store_id with
    | none =>
      left
      simp [applyOp, updateOrderStatus_no_store db u oid st hs]
    | some s =>
      cases hf : db.orders.find? (fun o => o.id == oid && o.store_id == some s) with
      | none =>
        left
        simp [applyOp, updateOrderStatus_not_found db u oid st s hs hf]
      | some o₀ =>
        cases hall : (OrderStatus.get_allowed_transitions o₀.status).contains st with
        | false =>
          left
          simp [applyOp, updateOrderStatus_invalid db u oid st s o₀ hs hf hall]
        | true =>
          right; right; right
          refine ⟨u, oid, st, s, o₀, rfl, hs, hf, hall, ?_⟩
          simp [applyOp, updateOrderStatus_ok db u oid st s o₀ hs hf hall]
  | newMenu u req =>
    left
    cases hs : u.store_id with
    | none =>
      simp [applyOp, createMenu_no_store db u req hs]
    | some s =>
      rcases hok : createMenu db u req with m | p
      · simp [applyOp, hok]
      · simp only [applyOp, hok]
        exact (createMenu_ok db u req s hs).2 p.1 p.2 hok
  | updMenu u mid upd =>
    left
    rcases hok : updateMenu db u mid upd with m | p
    · simp [applyOp, hok]
    · simp only [applyOp, hok]
      exact updateMenu_orders db u mid upd p.1 p.2 hok
  | delMenu u mid =>
    left
    rcases hok : deleteMenu db u mid with m | db'
    · simp [applyOp, hok]
    · simp only [applyOp, hok]
      exact deleteMenu_orders db u mid db' hok

/-- Every mutating call preserves primary-key uniqueness of the orders
table. -/
theorem ordersNodup_applyOp (db : Db) (op : Op) (hn : ordersNodup db) :
    ordersNodup (applyOp db op) := by
  unfold ordersNodup at hn ⊢
  rcases applyOp_orders_cases db op with h | ⟨u, req, now, menu, _, hm, h⟩ |
    ⟨u, oid, o₀, _, hf, hst, h⟩ | ⟨u, oid, st, s, o₀, _, hs, hf, hall, h⟩
  · rw [h]
    exact hn
  · rw [h]
    simp only [List.map_append, List.map_cons, List.map_nil]
    apply List.Nodup.append hn (List.nodup_singleton _)
    intro a ha hb
    rcases List.mem_map.mp ha with ⟨o, ho, rfl⟩
    simp only [List.mem_singleton] at hb
    exact freshOrderId_not_mem db o ho hb
  · rw [h]
    exact nodup_setStatus _ _ _ hn
  · rw [h]
    exact nodup_setStatus _ _ _ hn

/-- One mutating call, seen from one existing order: the order stays
retrievable, all its columns except `status` are unchanged, and the status
can only change from "pending" to "cancelled" (a customer cancellation) or
along an allowed transition of the four-state table. -/
theorem lookupOrder_applyOp_step (db : Db) (op : Op) (i : Nat) (o : Order)
    (hn : ordersNodup db) (h : lookupOrder db i = some o) :
    ∃ o₁, lookupOrder (applyOp db op) i = some o₁ ∧
      o₁.id = o.id ∧ o₁.user_id = o.user_id ∧ o₁.menu_id = o.menu_id ∧
      o₁.store_id = o.store_id ∧ o₁.quantity = o.quantity ∧
      o₁.total_price = o.total_price ∧ o₁.ordered_at = o.ordered_at ∧
      (o₁.status = o.status ∨
        (o.status = "pending" ∧ o₁.status = "cancelled") ∨
        (OrderStatus.get_allowed_transitions o.status).contains o₁.status = true) := by
  have h' : db.orders.find? (fun x => x.id == i) = some o := h
  have ho : o ∈ db.orders := List.mem_of_find?_eq_some h'
  rcases applyOp_orders_cases db op with hc | ⟨u, req, now, menu, _, hm, hc⟩ |
    ⟨u, oid, o₀, _, hf, hst, hc⟩ | ⟨u, oid, st, s, o₀, _, hs, hf, hall, hc⟩
  · refine ⟨o, ?_, rfl, rfl, rfl, rfl, rfl, rfl, rfl, Or.inl rfl⟩
    unfold lookupOrder
    rw [hc]
    exact h'
  · refine ⟨o, ?_, rfl, rfl, rfl, rfl, rfl, rfl, rfl, Or.inl rfl⟩
    unfold lookupOrder
    rw [hc]
    exact find?_append_left _ _ _ _ h'
  · -- a customer cancellation rewrote statuses
    have hcond : ∀ x : Order,
        ((if x.id == oid && x.user_id == u.id then { x with status := "cancelled" }
          else x).id == i) = (x.id == i) := fun x => by
      cases hcase : (x.id == oid && x.user_id == u.id) <;> simp [hcase]
    have hfind := find?_map_of_pred_inv (p := fun x : Order => x.id == i)
      (f := fun x => if x.id == oid && x.user_id == u.id then
        { x with status := "cancelled" } else x) hcond db.orders
    have hlook : lookupOrder (applyOp db op) i =
        some (if o.id == oid && o.user_id == u.id then
          { o with status := "cancelled" } else o) := by
      unfold lookupOrder
      rw [hc, hfind, h']
      rfl
    by_cases hmatch : (o.id == oid && o.user_id == u.id) = true
    · have ho₀ : o₀ ∈ db.orders := List.mem_of_find?_eq_some hf
      have ho₀id : (o₀.id == oid && o₀.user_id == u.id) = true :=
        List.find?_some (p := fun o : Order => o.id == oid && o.user_id == u.id) hf
      have heq : o₀ = o := by
        apply nodup_id_unique hn ho₀ ho
        simp only [Bool.and_eq_true, beq_iff_eq] at hmatch ho₀id
        rw [ho₀id.1, hmatch.1]
      refine ⟨_, hlook, ?_⟩
      rw [if_pos hmatch]
      refine ⟨rfl, rfl, rfl, rfl, rfl, rfl, rfl, Or.inr (Or.inl ⟨?_, rfl⟩)⟩
      rw [← heq]
      exact hst
    · refine ⟨o, ?_, rfl, rfl, rfl, rfl, rfl, rfl, rfl, Or.inl rfl⟩
      rw [hlook]
      simp [hmatch]
  · -- a staff status update rewrote statuses
    have hcond : ∀ x : Order,
        ((if x.id == oid && x.store_id == some s then { x with status := st }
          else x).id == i) = (x.id == i) := fun x => by
      cases hcase : (x.id == oid && x.store_id == some s) <;> simp [hcase]
    have hfind := find?_map_of_pred_inv (p := fun x : Order => x.id == i)
      (f := fun x => if x.id == oid && x.store_id == some s then
        { x with status := st } else x) hcond db.orders
    have hlook : lookupOrder (applyOp db op) i =
        some (if o.id == oid && o.store_id == some s then
          { o with status := st } else o) := by
      unfold lookupOrder
      rw [hc, hfind, h']
      rfl
    by_cases hmatch : (o.id == oid && o.store_id == some s) = true
    · have ho₀ : o₀ ∈ db.orders := List.mem_of_find?_eq_some hf
      have ho₀id : (o₀.id == oid && o₀.store_id == some s) = true :=
        List.find?_some (p := fun o : Order => o.id == oid && o.store_id == some s) hf
      have heq : o₀ = o := by
        apply nodup_id_unique hn ho₀ ho
        simp only [Bool.and_eq_true, beq_iff_eq] at hmatch ho₀id
        rw [ho₀id.1, hmatch.1]
      refine ⟨_, hlook, ?_⟩
      rw [if_pos hmatch]
      refine ⟨rfl, rfl, rfl, rfl, rfl, rfl, rfl, Or.inr (Or.inr ?_)⟩
      rw [← heq]
      exact hall
    · refine ⟨o, ?_, rfl, rfl, rfl, rfl, rfl, rfl, rfl, Or.inl rfl⟩
      rw [hlook]
      simp [hmatch]

theorem find?_append_of_none {α : Type} (p : α → Bool) (l₁ l₂ : List α)
    (h : l₁.find? p = none) : (l₁ ++ l₂).find? p = l₂.find? p := by
  induction l₁ with
  | nil => rfl
  | cons x t ih =>
    cases hp : p x with
    | true =>
      rw [List.find?_cons_of_pos _ hp] at h
      cases h
    | false =>
      rw [List.find?_cons_of_neg _ (by simp [hp])] at h
      rw [List.cons_append, List.find?_cons_of_neg _ (by simp [hp])]
      exact ih h

/-- Along any sequence of mutating calls, an existing order keeps its
`total_price` (and stays retrievable). -/
theorem lookupOrder_foldl_total_price (ops : List Op) (db : Db) (i : Nat)
    (o : Order) (hn : ordersNodup db) (h : lookupOrder db i = some o) :
    ∃ o₁, lookupOrder (ops.foldl applyOp db) i = some o₁ ∧
      o₁.total_price = o.total_price := by
  induction ops generalizing db o with
  | nil => exact ⟨o, h, rfl⟩
  | cons op t ih =>
    rcases lookupOrder_applyOp_step db op i o hn h with
      ⟨o₁, h₁, _, _, _, _, _, hp, _, _⟩
    rcases ih (applyOp db op) o₁ (ordersNodup_applyOp db op hn) h₁ with ⟨o₂, h₂, hp₂⟩
    exact ⟨o₂, by simpa using h₂, by rw [hp₂, hp]⟩

/-- C7 — Once an order's status is completed or cancelled, no sequence of
operations (status updates by store staff, cancellations by the owning
customer, or any other mutating call) ever changes its status again:
terminal states are never left. -/
theorem C7_terminal_states_never_left (ops : List Op) (db : Db) (i : Nat)
    (o : Order) (hn : ordersNodup db) (h : lookupOrder db i = some o)
    (ht : o.status = "completed" ∨ o.status = "cancelled") :
    ∃ o₁, lookupOrder (ops.foldl applyOp db) i = some o₁ ∧
      o₁.status = o.status := by
  induction ops generalizing db o with
  | nil => exact ⟨o, h, rfl⟩
  | cons op t ih =>
    rcases lookupOrder_applyOp_step db op i o hn h with
      ⟨o₁, h₁, _, _, _, _, _, _, _, hstat⟩
    have hkeep : o₁.status = o.status := by
      rcases hstat with hs | ⟨hpend, _⟩ | hcont
      · exact hs
      · rcases ht with hterm | hterm <;> rw [hterm] at hpend <;> simp at hpend
      · rcases ht with hterm | hterm <;>
          rw [hterm] at hcont <;>
          simp [OrderStatus.get_allowed_transitions] at hcont
    rcases ih (applyOp db op) o₁ (ordersNodup_applyOp db op hn) h₁
        (by rw [hkeep]; exact ht) with ⟨o₂, h₂, hs₂⟩
    exact ⟨o₂, by simpa using h₂, by rw [hs₂, hkeep]⟩

/-- Witness for C7 at a concrete input: one completed order, a store user
and a customer try to cancel and to update it, the status stays
"completed". -/
def c7order : Order :=
  ⟨1, 20, 1, some 1, 1, 500, "completed", none, none, ⟨5, 9⟩⟩

def c7user : User := ⟨10, "owner1", some "Owner One", "store", some 1⟩

def c7cust : User := ⟨20, "cust", some "Customer", "customer", none⟩

def c7db : Db := ⟨[⟨1, "Bento", 500, none, none, true, 1⟩], [c7user, c7cust], [c7order]⟩

theorem C7_witness :
    ∃ o₁, lookupOrder
        ([Op.cancel c7cust 1, Op.updStatus c7user 1 "pending"].foldl applyOp c7db)
        1 = some o₁ ∧ o₁.status = c7order.status :=
  C7_terminal_states_never_left [Op.cancel c7cust 1, Op.updStatus c7user 1 "pending"]
    c7db 1 c7order (by unfold ordersNodup; decide) (by decide) (Or.inl rfl)

/-- C2 — An order created by `create_order` has
`total_price = menu.price × quantity` for the menu row found at creation
time, with the validated quantity between 1 and 10, and no later mutating
call (in particular no `update_menu` price change) ever changes that
`total_price`. -/
theorem C2_total_price_snapshot (db : Db) (u : User) (req : OrderCreate)
    (now : Timestamp) (o : Order) (db' : Db) (ops : List Op)
    (hn : ordersNodup db) (hval : req.valid)
    (h : createOrder db u req now = .ok (o, db')) :
    (∃ menu, db.menus.find? (fun m => m.id == req.menu_id && m.is_available) = some menu ∧
        o.total_price = menu.price * o.quantity) ∧
    o.quantity = req.quantity ∧ 1 ≤ o.quantity ∧ o.quantity ≤ 10 ∧
    ∃ o₁, lookupOrder (ops.foldl applyOp db') o.id = some o₁ ∧
      o₁.total_price = o.total_price := by
  cases hm : db.menus.find? (fun m => m.id == req.menu_id && m.is_available) with
  | none =>
    rw [createOrder_menu_missing db u req now hm] at h
    cases h
  | some menu =>
    rw [createOrder_ok db u req now menu hm] at h
    have ho : o = newOrderRow db u req now menu := by
      cases h
      rfl
    have hdb' : db' = { db with orders := db.orders ++ [newOrderRow db u req now menu] } := by
      cases h
      rfl
    have happly : applyOp db (.create u req now) = db' := by
      simp [applyOp, createOrder_ok db u req now menu hm, hdb']
    have hn' : ordersNodup db' := by
      rw [← happly]
      exact ordersNodup_applyOp db _ hn
    have hlook : lookupOrder db' o.id = some o := by
      rw [hdb', ho]
      unfold lookupOrder
      show (db.orders ++ [newOrderRow db u req now menu]).find?
        (fun x => x.id == freshOrderId db) = _
      rw [find?_append_of_none]
      · simp [newOrderRow]
      · rw [List.find?_eq_none]
        intro x hx
        simp only [beq_iff_eq]
        exact freshOrderId_not_mem db x hx
    have hfst : o.total_price = menu.price * o.quantity := by
      rw [ho]
      rfl
    have hq : o.quantity = req.quantity := by
      rw [ho]
      rfl
    refine ⟨?_, hq, ?_, ?_, ?_⟩
    · exact ⟨menu, hm ▸ rfl, hfst⟩
    · rw [hq]
      exact hval.2.2.1
    · rw [hq]
      exact hval.2.2.2.1
    · exact lookupOrder_foldl_total_price ops db' o.id o hn' hlook

/-- Witness for C2 at the spec scenario: menu price 500, quantity 2 gives
total_price 1000, and a later `update_menu` price change to 700 leaves the
existing order's total_price at 1000. -/
def c2menu : Menu := ⟨1, "Bento", 500, none, none, true, 7⟩

def c2cust : User := ⟨20, "cust", some "Customer", "customer", none⟩

def c2owner : User := ⟨10, "owner", some "Owner", "store", some 7⟩

def c2db : Db := ⟨[c2menu], [c2owner, c2cust], []⟩

def c2req : OrderCreate := ⟨1, 7, 2, none, none⟩

def c2upd : MenuUpdate := ⟨none, some 700, none, none, none⟩

theorem C2_witness :
    ∃ o db', createOrder c2db c2cust c2req ⟨5, 9⟩ = .ok (o, db') ∧
      o.total_price = 1000 ∧
      ∃ o₁, lookupOrder ([Op.updMenu c2owner 1 c2upd].foldl applyOp db') o.id
          = some o₁ ∧ o₁.total_price = o.total_price := by
  refine ⟨newOrderRow c2db c2cust c2req ⟨5, 9⟩ c2menu,
    { c2db with orders := c2db.orders ++ [newOrderRow c2db c2cust c2req ⟨5, 9⟩ c2menu] },
    createOrder_ok c2db c2cust c2req ⟨5, 9⟩ c2menu (by decide), by decide, ?_⟩
  have := C2_total_price_snapshot c2db c2cust c2req ⟨5, 9⟩
    (newOrderRow c2db c2cust c2req ⟨5, 9⟩ c2menu)
    { c2db with orders := c2db.orders ++ [newOrderRow c2db c2cust c2req ⟨5, 9⟩ c2menu] }
    [Op.updMenu c2owner 1 c2upd] (by unfold ordersNodup; decide)
    ⟨by decide, by decide, by decide, by decide, by intro s hs; cases hs⟩
    (createOrder_ok c2db c2cust c2req ⟨5, 9⟩ c2menu (by decide))
  exact this.2.2.2.2

/-! ### C3: what create_order actually inserts -/

def c3menu : Menu := ⟨1, "Bento", 500, none, none, true, 7⟩

def c3cust : User := ⟨20, "cust", some "Customer", "customer", none⟩

def c3db : Db := ⟨[c3menu], [c3cust], []⟩

/-- A valid creation request naming menu 1 of store 7. -/
def c3req : OrderCreate := ⟨1, 7, 2, none, none⟩

/-- C3 — evaluation of `create_order` at a concrete valid request: the
insert succeeds in the model, but the constructed order carries no
`store_id` at all (`none`), even though the referenced menu belongs to
store 7 and the request's own `store_id` field says 7.  The handler never
copies either one into the row, so the claimed cross-store invariant is
not enforced at creation (and against the real NOT NULL column the insert
would fail outright). -/
theorem C3_create_order_ignores_store :
    createOrder c3db c3cust c3req ⟨5, 9⟩ =
      .ok (newOrderRow c3db c3cust c3req ⟨5, 9⟩ c3menu,
        { c3db with orders := c3db.orders ++ [newOrderRow c3db c3cust c3req ⟨5, 9⟩ c3menu] }) ∧
    (newOrderRow c3db c3cust c3req ⟨5, 9⟩ c3menu).store_id = none ∧
    (newOrderRow c3db c3cust c3req ⟨5, 9⟩ c3menu).menu_id = c3menu.id ∧
    c3menu.store_id = 7 ∧ c3req.store_id = 7 ∧
    (newOrderRow c3db c3cust c3req ⟨5, 9⟩ c3menu).store_id ≠ some c3menu.store_id := by
  refine ⟨createOrder_ok c3db c3cust c3req ⟨5, 9⟩ c3menu rfl, rfl, rfl, rfl, rfl, by decide⟩

/-! ### C5: cancel_order -/

/-- C5 — `cancel_order`: 404 when the order is missing or not owned by the
caller; 400 (database untouched, every field unchanged) when the status is
anything but exactly "pending"; on a pending order it succeeds and the
returned order is the original with only the status set to "cancelled". -/
theorem C5_cancel_order_behaviour (db : Db) (u : User) (oid : Nat) :
    (db.orders.find? (fun o => o.id == oid && o.user_id == u.id) = none →
      cancelOrder db u oid = .error ⟨404, "Order not found"⟩) ∧
    (∀ o₀, db.orders.find? (fun o => o.id == oid && o.user_id == u.id) = some o₀ →
      (o₀.status ≠ "pending" →
        cancelOrder db u oid = .error ⟨400, "Only pending orders can be cancelled"⟩ ∧
        applyOp db (.cancel u oid) = db) ∧
      (o₀.status = "pending" →
        cancelOrder db u oid =
          .ok ({ o₀ with status := "cancelled" },
            { db with orders := db.orders.map (fun x =>
                if x.id == oid && x.user_id == u.id then { x with status := "cancelled" }
                else x) }))) := by
  refine ⟨fun hf => cancelOrder_not_found db u oid hf, fun o₀ hf => ⟨fun hst => ?_, ?_⟩⟩
  · refine ⟨cancelOrder_conflict db u oid o₀ hf hst, ?_⟩
    simp [applyOp, cancelOrder_conflict db u oid o₀ hf hst]
  · exact fun hst => cancelOrder_ok db u oid o₀ hf hst

def c5pending : Order := ⟨1, 20, 1, some 7, 1, 500, "pending", none, none, ⟨5, 9⟩⟩

def c5done : Order := ⟨2, 20, 1, some 7, 1, 500, "completed", none, none, ⟨5, 10⟩⟩

def c5cust : User := ⟨20, "cust", some "Customer", "customer", none⟩

def c5db : Db := ⟨[c3menu], [c5cust], [c5pending, c5done]⟩

theorem C5_witness :
    cancelOrder c5db c5cust 99 = .error ⟨404, "Order not found"⟩ ∧
    cancelOrder c5db c5cust 2 = .error ⟨400, "Only pending orders can be cancelled"⟩ ∧
    cancelOrder c5db c5cust 1 =
      .ok ({ c5pending with status := "cancelled" },
        { c5db with orders := c5db.orders.map (fun x =>
            if x.id == 1 && x.user_id == 20 then { x with status := "cancelled" }
            else x) }) :=
  ⟨(C5_cancel_order_behaviour c5db c5cust 99).1 (by decide),
   (((C5_cancel_order_behaviour c5db c5cust 2).2 c5done (by decide)).1 (by decide)).1,
   ((C5_cancel_order_behaviour c5db c5cust 1).2 c5pending (by decide)).2 rfl⟩

/-! ### C4: update_order_status -/

/-- The transitions the spec's four-state table allows, written directly
from the spec's wording (for comparison against the handler). -/
def specAllowedPairs : List (String × String) :=
  [("pending", "ready"), ("pending", "cancelled"), ("ready", "completed")]

theorem contains_iff_specPair (cur st : String) :
    (OrderStatus.get_allowed_transitions cur).contains st = true ↔
      (cur, st) ∈ specAllowedPairs := by
  unfold OrderStatus.get_allowed_transitions specAllowedPairs
  by_cases h1 : cur = "pending"
  · simp [h1, Prod.ext_iff]
  · by_cases h2 : cur = "ready"
    · simp [h1, h2, Prod.ext_iff]
    · simp [h1, h2, Prod.ext_iff]

theorem charsStartWith_append (n rest : List Char) :
    charsStartWith n (n ++ rest) = true := by
  induction n with
  | nil => simp [charsStartWith]
  | cons a as ih => simp [charsStartWith, ih]

theorem charsInside_append (pre n post : List Char) :
    charsInside n (pre ++ (n ++ post)) = true := by
  induction pre with
  | nil =>
    cases n with
    | nil => cases post <;> simp [charsInside, charsStartWith]
    | cons a as =>
      have h := charsStartWith_append (a :: as) post
      rw [List.cons_append] at h
      simp [charsInside, h]
  | cons p ps ih => simp [charsInside, ih]

theorem strContains_middle (pre mid post : String) :
    strContains (pre ++ (mid ++ post)) mid = true := by
  unfold strContains
  rw [String.data_append, String.data_append]
  exact charsInside_append pre.data mid.data post.data

/-- The invalid-transition message names the attempted current status. -/
theorem invalidTransitionDetail_names_cur (cur st : String) :
    strContains (invalidTransitionDetail cur st) cur = true := by
  unfold invalidTransitionDetail
  have h : "Invalid status transition from " ++ String.singleton (Char.ofNat 39) ++ cur ++
        String.singleton (Char.ofNat 39) ++ " to " ++ String.singleton (Char.ofNat 39) ++ st ++
        String.singleton (Char.ofNat 39) ++ ". Allowed: [" ++
        String.intercalate ", " ((OrderStatus.get_allowed_transitions cur).map
          (fun a => String.singleton (Char.ofNat 39) ++ a ++ String.singleton (Char.ofNat 39))) ++ "]"
      = ("Invalid status transition from " ++ String.singleton (Char.ofNat 39)) ++
        (cur ++ (String.singleton (Char.ofNat 39) ++ " to " ++ String.singleton (Char.ofNat 39) ++ st ++
          String.singleton (Char.ofNat 39) ++ ". Allowed: [" ++
          String.intercalate ", " ((OrderStatus.get_allowed_transitions cur).map
            (fun a => String.singleton (Char.ofNat 39) ++ a ++ String.singleton (Char.ofNat 39))) ++ "]")) := by
    simp [String.append_assoc]
  rw [h]
  exact strContains_middle _ _ _

/-- The invalid-transition message names the requested target status. -/
theorem invalidTransitionDetail_names_new (cur st : String) :
    strContains (invalidTransitionDetail cur st) st = true := by
  unfold invalidTransitionDetail
  have h : "Invalid status transition from " ++ String.singleton (Char.ofNat 39) ++ cur ++
        String.singleton (Char.ofNat 39) ++ " to " ++ String.singleton (Char.ofNat 39) ++ st ++
        String.singleton (Char.ofNat 39) ++ ". Allowed: [" ++
        String.intercalate ", " ((OrderStatus.get_allowed_transitions cur).map
          (fun a => String.singleton (Char.ofNat 39) ++ a ++ String.singleton (Char.ofNat 39))) ++ "]"
      = ("Invalid status transition from " ++ String.singleton (Char.ofNat 39) ++ cur ++
          String.singleton (Char.ofNat 39) ++ " to " ++ String.singleton (Char.ofNat 39)) ++
        (st ++ (String.singleton (Char.ofNat 39) ++ ". Allowed: [" ++
          String.intercalate ", " ((OrderStatus.get_allowed_transitions cur).map
            (fun a => String.singleton (Char.ofNat 39) ++ a ++ String.singleton (Char.ofNat 39))) ++ "]")) := by
    simp [String.append_assoc]
  rw [h]
  exact strContains_middle _ _ _

/-- C4 — `update_order_status` for a store-staff caller: a missing or
out-of-store order yields 404; when the order is found, the requested
transition is checked against exactly the spec's four-state table
(`pending` to `ready` or `cancelled`, `ready` to `completed`, `completed`
and `cancelled` terminal): a disallowed pair yields a 400 error whose
message names the attempted statuses (and the database is untouched), an
allowed pair updates the status.  The last conjunct re-checks the table. -/
theorem C4_update_order_status_validation (db : Db) (u : User) (oid : Nat)
    (st : String) (s : Nat) (hs : u.store_id = some s) :
    (db.orders.find? (fun o => o.id == oid && o.store_id == some s) = none →
      updateOrderStatus db u oid st = .error ⟨404, "Order not found"⟩) ∧
    (∀ o₀, db.orders.find? (fun o => o.id == oid && o.store_id == some s) = some o₀ →
      ((o₀.status, st) ∉ specAllowedPairs →
        updateOrderStatus db u oid st =
          .error ⟨400, invalidTransitionDetail o₀.status st⟩ ∧
        applyOp db (.updStatus u oid st) = db ∧
        strContains (invalidTransitionDetail o₀.status st) o₀.status = true ∧
        strContains (invalidTransitionDetail o₀.status st) st = true) ∧
      ((o₀.status, st) ∈ specAllowedPairs →
        updateOrderStatus db u oid st =
          .ok ({ o₀ with status := st },
            { db with orders := db.orders.map (fun x =>
                if x.id == oid && x.store_id == some s then { x with status := st }
                else x) }))) ∧
    OrderStatus.get_allowed_transitions "pending" = ["ready", "cancelled"] ∧
    OrderStatus.get_allowed_transitions "ready" = ["completed"] ∧
    OrderStatus.get_allowed_transitions "completed" = [] ∧
    OrderStatus.get_allowed_transitions "cancelled" = [] := by
  refine ⟨fun hf => updateOrderStatus_not_found db u oid st s hs hf,
    fun o₀ hf => ⟨fun hpair => ?_, fun hpair => ?_⟩, by decide, by decide, by decide, by decide⟩
  · have hall : (OrderStatus.get_allowed_transitions o₀.status).contains st = false := by
      cases hc : (OrderStatus.get_allowed_transitions o₀.status).contains st with
      | false => rfl
      | true => exact absurd ((contains_iff_specPair o₀.status st).mp hc) hpair
    refine ⟨updateOrderStatus_invalid db u oid st s o₀ hs hf hall, ?_,
      invalidTransitionDetail_names_cur o₀.status st,
      invalidTransitionDetail_names_new o₀.status st⟩
    simp [applyOp, updateOrderStatus_invalid db u oid st s o₀ hs hf hall]
  · have hall : (OrderStatus.get_allowed_transitions o₀.status).contains st = true :=
      (contains_iff_specPair o₀.status st).mpr hpair
    exact updateOrderStatus_ok db u oid st s o₀ hs hf hall

def c4staff : User := ⟨11, "staff1", some "Staff One", "store", some 7⟩

theorem C4_witness :
    c4staff.store_id = some 7 ∧
    updateOrderStatus c5db c4staff 99 "ready" = .error ⟨404, "Order not found"⟩ ∧
    updateOrderStatus c5db c4staff 1 "completed" =
      .error ⟨400, invalidTransitionDetail "pending" "completed"⟩ ∧
    updateOrderStatus c5db c4staff 1 "ready" =
      .ok ({ c5pending with status := "ready" },
        { c5db with orders := c5db.orders.map (fun x =>
            if x.id == 1 && x.store_id == some 7 then { x with status := "ready" }
            else x) }) :=
  ⟨rfl,
   (C4_update_order_status_validation c5db c4staff 99 "ready" 7 rfl).1 (by decide),
   (((C4_update_order_status_validation c5db c4staff 1 "completed" 7 rfl).2.1
      c5pending (by decide)).1 (by decide)).1,
   ((C4_update_order_status_validation c5db c4staff 1 "ready" 7 rfl).2.1
      c5pending (by decide)).2 (by decide)⟩

/-! ### C9 and C10: the customer menu listing -/

def c9hidden : Menu := ⟨1, "Hidden Bento", 500, none, none, false, 7⟩

def c9db : Db := ⟨[c9hidden], [], []⟩

/-- The query a customer can send with `is_available=false`. -/
def c9params : MenuQuery := ⟨some false, none, none, none, 1, 20⟩

/-- C9 (counterexample) — with the query parameter `is_available=false` a
customer receives menus whose availability flag is false from
`get_menus`: the claimed available-only guarantee fails for that parameter
combination. -/
theorem C9_counterexample_unavailable_listed :
    c9hidden ∈ (getMenus c9db c9params).menus ∧ c9hidden.is_available = false := by
  constructor
  · show c9hidden ∈ (getMenus c9db c9params).menus
    decide
  · rfl

/-- C9 (amended) — `get_menu` only ever returns an available menu, and
`get_menus` returns only available menus whenever the customer omits the
`is_available` parameter or sets it to true; only an explicit
`is_available=false` exposes unavailable menus. -/
theorem C9_available_only (db : Db) (p : MenuQuery) (menu_id : Nat) :
    ((p.is_available = none ∨ p.is_available = some true) →
      ∀ m ∈ (getMenus db p).menus, m.is_available = true) ∧
    (∀ m, getMenu db menu_id = .ok m → m.is_available = true) := by
  constructor
  · intro hp m hm
    have hmem : m ∈ db.menus.filter (menuMatches p) := by
      unfold getMenus at hm
      exact List.mem_of_mem_drop (List.mem_of_mem_take hm)
    have hmatch : menuMatches p m = true := (List.mem_filter.mp hmem).2
    unfold menuMatches at hmatch
    rcases hp with hp | hp <;>
      rw [hp] at hmatch <;>
      simp only [Bool.and_eq_true, beq_iff_eq] at hmatch <;>
      exact hmatch.1.1.1
  · intro m hm
    unfold getMenu at hm
    cases hf : db.menus.find? (fun x => x.id == menu_id && x.is_available) with
    | none =>
      rw [hf] at hm
      cases hm
    | some m₀ =>
      rw [hf] at hm
      cases hm
      have := List.find?_some (p := fun x : Menu => x.id == menu_id && x.is_available) hf
      simp only [Bool.and_eq_true] at this
      exact this.2

def c9avail : Menu := ⟨2, "Open Bento", 400, none, none, true, 7⟩

def c9db2 : Db := ⟨[c9hidden, c9avail], [], []⟩

def c9defaultParams : MenuQuery := ⟨none, none, none, none, 1, 20⟩

theorem C9_witness :
    (c9defaultParams.is_available = none ∨ c9defaultParams.is_available = some true) ∧
    (∀ m ∈ (getMenus c9db2 c9defaultParams).menus, m.is_available = true) ∧
    (∀ m, getMenu c9db2 2 = .ok m → m.is_available = true) :=
  ⟨Or.inl rfl,
   (C9_available_only c9db2 c9defaultParams 2).1 (Or.inl rfl),
   (C9_available_only c9db2 c9defaultParams 2).2⟩

/-- C10 — the customer menu listing applies no store filter: its selection
predicate is insensitive to `store_id` (replacing any menu's store leaves
the predicate's verdict unchanged), every matching menu of every store is
in the filtered set the endpoint paginates, the reported `total` counts
matching menus across all stores, and every returned menu comes from that
cross-store filtered set. -/
theorem C10_get_menus_cross_tenant (db : Db) (p : MenuQuery) (m : Menu) (t : Nat) :
    menuMatches p m = menuMatches p { m with store_id := t } ∧
    (m ∈ db.menus → menuMatches p m = true → m ∈ db.menus.filter (menuMatches p)) ∧
    (getMenus db p).total = (db.menus.filter (menuMatches p)).length ∧
    (∀ x ∈ (getMenus db p).menus, x ∈ db.menus.filter (menuMatches p)) := by
  refine ⟨rfl, ?_, rfl, ?_⟩
  · intro hm hmatch
    exact List.mem_filter.mpr ⟨hm, hmatch⟩
  · intro x hx
    unfold getMenus at hx
    exact List.mem_of_mem_drop (List.mem_of_mem_take hx)

def c10m1 : Menu := ⟨1, "Shop One Bento", 100, none, none, true, 1⟩

def c10m2 : Menu := ⟨2, "Shop Two Bento", 200, none, none, true, 2⟩

def c10db : Db := ⟨[c10m1, c10m2], [], []⟩

theorem C10_witness :
    c10m2 ∈ c10db.menus ∧ menuMatches c9defaultParams c10m2 = true ∧
    c10m2 ∈ c10db.menus.filter (menuMatches c9defaultParams) ∧
    (getMenus c10db c9defaultParams).total =
      (c10db.menus.filter (menuMatches c9defaultParams)).length :=
  ⟨by decide, by decide,
   (C10_get_menus_cross_tenant c10db c9defaultParams c10m2 9).2.1 (by decide) (by decide),
   (C10_get_menus_cross_tenant c10db c9defaultParams c10m2 9).2.2.1⟩

/-! ### C8: the hourly histogram -/

/-- C8 — the dashboard's `hourly_orders`: exactly 24 entries, the i-th
entry is for hour i and counts today's orders of the caller's store (all
statuses, cancelled included) whose `ordered_at` hour equals i, and the 24
counts sum to `total_orders`, which is the unfiltered count of today's
orders of that store. -/
theorem C8_hourly_histogram (db : Db) (u : User) (today : Int) (s : Nat)
    (res : OrderSummary) (hs : u.store_id = some s)
    (h : getDashboard db u today = .ok res) :
    res.hourly_orders.length = 24 ∧
    (∀ i, ∀ hi : i < res.hourly_orders.length,
      (res.hourly_orders.get ⟨i, hi⟩).hour = i ∧
      (res.hourly_orders.get ⟨i, hi⟩).order_count =
        (dayStoreOrders db s today).countP (fun o => o.ordered_at.hour.val == i)) ∧
    (res.hourly_orders.map (fun e => e.order_count)).sum = res.total_orders ∧
    res.total_orders = (dayStoreOrders db s today).length := by
  unfold getDashboard at h
  rw [hs] at h
  cases h
  refine ⟨by simp, ?_, ?_, rfl⟩
  · intro i hi
    have hlen : i < 24 := by simpa using hi
    constructor
    · rw [List.get_eq_getElem]
      rw [List.getElem_map, List.getElem_range]
    · rw [List.get_eq_getElem]
      rw [List.getElem_map, List.getElem_range]
  · have hbound : ∀ o ∈ dayStoreOrders db s today, o.ordered_at.hour.val < 24 :=
      fun o _ => o.ordered_at.hour.isLt
    have hsum := countP_hour_buckets (dayStoreOrders db s today) 24 hbound
    simpa [List.map_map, Function.comp] using hsum

def c8order : Order := ⟨1, 20, 1, some 1, 1, 500, "pending", none, none, ⟨5, 9⟩⟩

def c8user : User := ⟨10, "owner", some "Owner", "store", some 1⟩

def c8db : Db := ⟨[⟨1, "Bento", 500, none, none, true, 1⟩], [c8user], [c8order]⟩

/-- The summary `get_dashboard` produces on the C8 witness state. -/
def c8res : OrderSummary :=
  match getDashboard c8db c8user 5 with
  | .ok r => r
  | .error _ => ⟨0, 0, 0, 0, 0, 0, 0, 0, ⟨0, 0, 0, 0⟩, [], []⟩

theorem C8_witness :
    c8user.store_id = some 1 ∧ getDashboard c8db c8user 5 = .ok c8res ∧
    c8res.hourly_orders.length = 24 ∧
    (c8res.hourly_orders.map (fun e => e.order_count)).sum = c8res.total_orders :=
  ⟨rfl, rfl,
   (C8_hourly_histogram c8db c8user 5 1 c8res rfl rfl).1,
   (C8_hourly_histogram c8db c8user 5 1 c8res rfl rfl).2.2.1⟩

/-! ### C6: the dashboard ratio fields -/

/-- Today's unfiltered order count for a store. -/
def todayStoreCount (db : Db) (s : Nat) (d : Int) : Nat :=
  (dayStoreOrders db s d).length

/-- Today's cancelled-order count for a store. -/
def todayCancelledCount (db : Db) (s : Nat) (d : Int) : Nat :=
  (dayStoreOrders db s d).countP (fun o => o.status == "cancelled")

/-- Today's non-cancelled sales for a store. -/
def todayNonCancelledSales (db : Db) (s : Nat) (d : Int) : Int :=
  revenueOf ((dayStoreOrders db s d).filter (fun o => o.status != "cancelled"))

theorem roundTo2_zero : roundTo2 0 = 0 := by
  unfold roundTo2 roundHalfEven
  norm_num

/-- C6 (amended) — dashboard ratio fields: `average_order_value` is the
quotient `total_sales / (total_orders − cancelled_orders)` rounded half to
even to two decimal places when the denominator is positive and exactly
0.0 when it is 0; each `yesterday_comparison` percentage is the rounded
percentage when its prior-day denominator is positive and exactly 0.0 when
it is 0.  Every division is guarded by a positive denominator, so in the
rational model of Python's floats no field can be NaN or infinite. -/
theorem C6_ratio_fields (db : Db) (u : User) (today : Int) (s : Nat)
    (res : OrderSummary) (hs : u.store_id = some s)
    (h : getDashboard db u today = .ok res) :
    (res.average_order_value =
      if 0 < todayStoreCount db s today - todayCancelledCount db s today then
        roundTo2 ((todayNonCancelledSales db s today : ℚ) /
          ((todayStoreCount db s today - todayCancelledCount db s today : Nat) : ℚ))
      else 0) ∧
    (todayStoreCount db s today - todayCancelledCount db s today = 0 →
      res.average_order_value = 0) ∧
    (res.yesterday_comparison.orders_change_percent =
      if 0 < todayStoreCount db s (today - 1) then
        roundTo2 (((todayStoreCount db s today : Int) -
            (todayStoreCount db s (today - 1) : Int) : Int) /
          ((todayStoreCount db s (today - 1) : Nat) : ℚ) * 100)
      else 0) ∧
    (todayStoreCount db s (today - 1) = 0 →
      res.yesterday_comparison.orders_change_percent = 0) ∧
    (res.yesterday_comparison.revenue_change_percent =
      if 0 < todayNonCancelledSales db s (today - 1) then
        roundTo2 (((todayNonCancelledSales db s today -
            todayNonCancelledSales db s (today - 1) : Int) : ℚ) /
          ((todayNonCancelledSales db s (today - 1) : Int) : ℚ) * 100)
      else 0) ∧
    (todayNonCancelledSales db s (today - 1) = 0 →
      res.yesterday_comparison.revenue_change_percent = 0) := by
  unfold getDashboard at h
  rw [hs] at h
  cases h
  unfold todayStoreCount todayCancelledCount todayNonCancelledSales
  refine ⟨?_, ?_, ?_, ?_, ?_, ?_⟩
  · by_cases hc : 0 < (dayStoreOrders db s today).length -
        (dayStoreOrders db s today).countP (fun o => o.status == "cancelled")
    · simp only [hc, if_pos]
    · simp only [hc, if_neg, Bool.false_eq_true, not_false_iff]
      have hz : (dayStoreOrders db s today).length -
          (dayStoreOrders db s today).countP (fun o => o.status == "cancelled") = 0 := by
        omega
      simp [hz, roundTo2_zero]
  · intro hz
    simp [hz, roundTo2_zero]
  · by_cases hc : 0 < (dayStoreOrders db s (today - 1)).length
    · simp only [hc, if_pos]
    · simp only [hc, if_neg, not_false_iff]
      have hz : (dayStoreOrders db s (today - 1)).length = 0 := by omega
      simp [hz, roundTo2_zero]
  · intro hz
    simp [hz, roundTo2_zero]
  · by_cases hc : 0 < revenueOf ((dayStoreOrders db s (today - 1)).filter
        (fun o => o.status != "cancelled"))
    · simp only [hc, if_pos]
    · simp only [hc, if_neg, not_false_iff]
      simp [hc, roundTo2_zero]
  · intro hz
    simp [hz, roundTo2_zero]

def c6o1 : Order := ⟨1, 20, 1, some 1, 1, 40, "pending", none, none, ⟨5, 9⟩⟩

def c6o2 : Order := ⟨2, 20, 2, some 1, 1, 30, "ready", none, none, ⟨5, 12⟩⟩

def c6o3 : Order := ⟨3, 20, 2, some 1, 1, 30, "completed", none, none, ⟨5, 12⟩⟩

def c6user : User := ⟨10, "owner", some "Owner", "store", some 1⟩

def c6db : Db :=
  ⟨[⟨1, "Bento A", 40, none, none, true, 1⟩, ⟨2, "Bento B", 30, none, none, true, 1⟩],
   [c6user], [c6o1, c6o2, c6o3]⟩

/-- The summary `get_dashboard` produces on the C6 counterexample state. -/
def c6res : OrderSummary :=
  match getDashboard c6db c6user 5 with
  | .ok r => r
  | .error _ => ⟨0, 0, 0, 0, 0, 0, 0, 0, ⟨0, 0, 0, 0⟩, [], []⟩

/-- C6 (counterexample) — three non-cancelled orders totalling 100 on one
day: the dashboard reports `average_order_value` 33.33 (the quotient
rounded to two decimal places), which is not equal to
`total_sales / (total_orders − cancelled_orders)` = 100/3 as the claim
states it. -/
theorem C6_counterexample_average_rounded :
    getDashboard c6db c6user 5 = .ok c6res ∧
    c6res.total_sales = 100 ∧ c6res.total_orders = 3 ∧
    c6res.cancelled_orders = 0 ∧
    c6res.average_order_value = 3333/100 ∧
    c6res.average_order_value ≠
      (c6res.total_sales : ℚ) /
        ((c6res.total_orders - c6res.cancelled_orders : Nat) : ℚ) := by
  have havg : c6res.average_order_value = roundTo2 ((100 : ℚ) / 3) := rfl
  have h2 : roundTo2 ((100 : ℚ) / 3) = 3333/100 := by
    unfold roundTo2 roundHalfEven
    have hf : ⌊(100 : ℚ) / 3 * 100⌋ = 3333 := by
      rw [Int.floor_eq_iff]
      norm_num
    rw [hf]
    norm_num
  refine ⟨rfl, rfl, rfl, rfl, havg.trans h2, ?_⟩
  rw [havg, h2, show c6res.total_sales = 100 from rfl,
    show c6res.total_orders = 3 from rfl, show c6res.cancelled_orders = 0 from rfl]
  norm_num

def c6wo1 : Order := ⟨1, 20, 1, some 1, 1, 40, "cancelled", none, none, ⟨5, 9⟩⟩

def c6wo2 : Order := ⟨2, 20, 1, some 1, 1, 30, "cancelled", none, none, ⟨5, 11⟩⟩

def c6wdb : Db := ⟨[⟨1, "Bento A", 40, none, none, true, 1⟩], [c6user], [c6wo1, c6wo2]⟩

/-- The summary `get_dashboard` produces on the all-cancelled witness
state. -/
def c6wres : OrderSummary :=
  match getDashboard c6wdb c6user 5 with
  | .ok r => r
  | .error _ => ⟨0, 0, 0, 0, 0, 0, 0, 0, ⟨0, 0, 0, 0⟩, [], []⟩

theorem C6_witness :
    c6user.store_id = some 1 ∧
    getDashboard c6wdb c6user 5 = .ok c6wres ∧
    todayStoreCount c6wdb 1 5 - todayCancelledCount c6wdb 1 5 = 0 ∧
    c6wres.average_order_value = 0 ∧
    c6wres.yesterday_comparison.orders_change_percent = 0 ∧
    c6wres.yesterday_comparison.revenue_change_percent = 0 :=
  ⟨rfl, rfl, by decide,
   (C6_ratio_fields c6wdb c6user 5 1 c6wres rfl rfl).2.1 (by decide),
   (C6_ratio_fields c6wdb c6user 5 1 c6wres rfl rfl).2.2.2.1 (by decide),
   (C6_ratio_fields c6wdb c6user 5 1 c6wres rfl rfl).2.2.2.2.2 (by decide)⟩

/-! ### C1: tenant isolation of the store-scoped endpoints -/

theorem storeOrders_restrict (db : Db) (s : Nat) :
    storeOrders (restrictOrders db s) s = storeOrders db s := by
  simp [storeOrders, restrictOrders, List.filter_filter]

theorem dayStoreOrders_restrict (db : Db) (s : Nat) (d : Int) :
    dayStoreOrders (restrictOrders db s) s d = dayStoreOrders db s d := by
  unfold dayStoreOrders
  rw [storeOrders_restrict]

theorem popularMenus_restrict (db : Db) (s : Nat) (today : Int) :
    popularMenus (restrictOrders db s) s today = popularMenus db s today := by
  unfold popularMenus
  rw [dayStoreOrders_restrict]
  rfl

theorem dayPopularMenu_restrict (db : Db) (s : Nat) (d : Int) :
    dayPopularMenu (restrictOrders db s) s d = dayPopularMenu db s d := by
  unfold dayPopularMenu
  rw [dayStoreOrders_restrict]
  rfl

theorem getAllOrders_restrict (db : Db) (u : User) (p : OrderQuery) (s : Nat)
    (hs : u.store_id = some s) :
    getAllOrders (restrictOrders db s) u p = getAllOrders db u p := by
  simp only [getAllOrders, hs, storeOrders_restrict]
  rfl

theorem getDashboard_restrict (db : Db) (u : User) (today : Int) (s : Nat)
    (hs : u.store_id = some s) :
    getDashboard (restrictOrders db s) u today = getDashboard db u today := by
  simp only [getDashboard, hs, dayStoreOrders_restrict, popularMenus_restrict]
  try rfl

theorem getWeeklySales_restrict (db : Db) (u : User) (today : Int) (s : Nat)
    (hs : u.store_id = some s) :
    getWeeklySales (restrictOrders db s) u today = getWeeklySales db u today := by
  simp only [getWeeklySales, hs, dayStoreOrders_restrict]
  try rfl

theorem getSalesReport_restrict (db : Db) (u : User) (startDay endDay : Int)
    (s : Nat) (hs : u.store_id = some s) :
    getSalesReport (restrictOrders db s) u startDay endDay =
      getSalesReport db u startDay endDay := by
  simp only [getSalesReport, hs, dayStoreOrders_restrict, dayPopularMenu_restrict,
    storeOrders_restrict]
  try rfl

/-- Peeling one optional narrowing filter off a query chain. -/
theorem mem_of_optNarrow {β : Type} (t : Option β) (l : List Order)
    (g : β → Order → Bool) (x : Order) (h : x ∈ optNarrow t g l) : x ∈ l := by
  cases t with
  | none => exact h
  | some b => exact (List.mem_filter.mp h).1

/-- Every order row `get_all_orders` returns belongs to the caller's
store. -/
theorem getAllOrders_scoped (db : Db) (u : User) (p : OrderQuery) (s : Nat)
    (res : OrderListResult) (hs : u.store_id = some s)
    (h : getAllOrders db u p = .ok res) :
    ∀ r ∈ res.orders, r.order.store_id = some s := by
  unfold getAllOrders at h
  rw [hs] at h
  cases h
  intro r hr
  rcases List.mem_map.mp hr with ⟨o, ho, rfl⟩
  have h1 := List.mem_of_mem_drop (List.mem_of_mem_take ho)
  have h2 := (mem_sortBy _ _ _).mp h1
  have h3 := mem_of_optNarrow p.q _ (fun needle => orderKeywordMatch db needle) _ h2
  have h4 := mem_of_optNarrow p.endDay _ (fun d => fun o => decide (o.ordered_at.day ≤ d)) _ h3
  have h5 := mem_of_optNarrow p.startDay _ (fun d => fun o => decide (d ≤ o.ordered_at.day)) _ h4
  have h6 := mem_of_optNarrow p.statusFilter _ (fun sts => fun o => sts.contains o.status) _ h5
  have h7 := (List.mem_filter.mp h6).2
  simpa using h7

/-- Under the spec's cross-store invariant, every menu named in the
dashboard's popular list belongs to the caller's store. -/
theorem getDashboard_popular_scoped (db : Db) (u : User) (today : Int)
    (s : Nat) (res : OrderSummary) (hs : u.store_id = some s)
    (h : getDashboard db u today = .ok res) (hcons : crossStoreConsistent db) :
    ∀ e ∈ res.popular_menus, ∃ m ∈ db.menus, m.id = e.menu_id ∧ m.store_id = s := by
  unfold getDashboard at h
  rw [hs] at h
  cases h
  intro e he
  unfold popularMenus at he
  have h1 := (mem_sortBy _ _ _).mp (List.mem_of_mem_take he)
  rcases List.mem_filterMap.mp h1 with ⟨mid, hmid, hf⟩
  rcases Option.map_eq_some'.mp hf with ⟨m, hfind, hbuild⟩
  have hm : m ∈ db.menus := List.mem_of_find?_eq_some hfind
  have hmid_eq : m.id = mid := by
    have := List.find?_some (p := fun x : Menu => x.id == mid) hfind
    simpa using this
  have hemid : e.menu_id = mid := by
    rw [← hbuild]
  rcases List.mem_dedup.mp hmid with hmem
  rcases List.mem_map.mp hmem with ⟨o, ho, hoid⟩
  have ho' : o ∈ dayStoreOrders db s today := (List.mem_filter.mp ho).1
  have hostore : o.store_id = some s := by
    have := (List.mem_filter.mp (List.mem_filter.mp ho').1).2
    simpa using this
  have hodb : o ∈ db.orders := (List.mem_filter.mp (List.mem_filter.mp ho').1).1
  have := hcons o hodb m hm (by rw [hoid, hmid_eq])
  rw [hostore] at this
  refine ⟨m, hm, by rw [hmid_eq, hemid], ?_⟩
  exact (Option.some.injEq _ _ ▸ this).symm

/-- C1 — tenant isolation: with a caller of store S1, every order row
`get_all_orders` returns belongs to S1 (never to another store S2); the
results of `get_all_orders`, `get_dashboard`, `get_weekly_sales` and
`get_sales_report` are unchanged when every order not belonging to S1 is
removed from the database (so no other store's order is ever aggregated);
and, under the spec's cross-store data invariant, every menu named in the
dashboard's popular list belongs to S1, never to S2. -/
theorem C1_tenant_isolation (db : Db) (u : User) (p : OrderQuery)
    (today startDay endDay : Int) (s1 s2 : Nat)
    (hs : u.store_id = some s1) (hne : s2 ≠ s1) :
    (∀ res, getAllOrders db u p = .ok res →
      ∀ r ∈ res.orders, r.order.store_id = some s1 ∧ r.order.store_id ≠ some s2) ∧
    getAllOrders (restrictOrders db s1) u p = getAllOrders db u p ∧
    getDashboard (restrictOrders db s1) u today = getDashboard db u today ∧
    getWeeklySales (restrictOrders db s1) u today = getWeeklySales db u today ∧
    getSalesReport (restrictOrders db s1) u startDay endDay =
      getSalesReport db u startDay endDay ∧
    (crossStoreConsistent db → ∀ res, getDashboard db u today = .ok res →
      ∀ e ∈ res.popular_menus, ∃ m ∈ db.menus,
        m.id = e.menu_id ∧ m.store_id = s1 ∧ m.store_id ≠ s2) := by
  refine ⟨?_, getAllOrders_restrict db u p s1 hs, getDashboard_restrict db u today s1 hs,
    getWeeklySales_restrict db u today s1 hs,
    getSalesReport_restrict db u startDay endDay s1 hs, ?_⟩
  · intro res hres r hr
    have h1 := getAllOrders_scoped db u p s1 res hs hres r hr
    refine ⟨h1, ?_⟩
    rw [h1]
    intro hcontra
    injection hcontra with hh
    exact hne hh.symm
  · intro hcons res hres e he
    rcases getDashboard_popular_scoped db u today s1 res hs hres hcons e he with
      ⟨m, hm, hid, hstore⟩
    refine ⟨m, hm, hid, hstore, ?_⟩
    rw [hstore]
    exact fun hcontra => hne hcontra.symm

def c1owner : User := ⟨10, "owner_a", some "Owner A", "store", some 1⟩

def c1db : Db :=
  ⟨[⟨1, "A Bento", 500, none, none, true, 1⟩, ⟨2, "B Bento", 600, none, none, true, 2⟩],
   [c1owner],
   [⟨1, 20, 1, some 1, 1, 500, "pending", none, none, ⟨5, 9⟩⟩,
    ⟨2, 21, 2, some 2, 1, 600, "pending", none, none, ⟨5, 10⟩⟩]⟩

def c1params : OrderQuery := ⟨none, none, none, none, "newest", 1, 100⟩

theorem C1_witness :
    c1owner.store_id = some 1 ∧ (2 : Nat) ≠ 1 ∧
    getAllOrders (restrictOrders c1db 1) c1owner c1params =
      getAllOrders c1db c1owner c1params ∧
    getDashboard (restrictOrders c1db 1) c1owner 5 = getDashboard c1db c1owner 5 ∧
    getWeeklySales (restrictOrders c1db 1) c1owner 5 = getWeeklySales c1db c1owner 5 ∧
    getSalesReport (restrictOrders c1db 1) c1owner 5 5 =
      getSalesReport c1db c1owner 5 5 :=
  ⟨rfl, by decide,
   (C1_tenant_isolation c1db c1owner c1params 5 5 5 1 2 rfl (by decide)).2.1,
   (C1_tenant_isolation c1db c1owner c1params 5 5 5 1 2 rfl (by decide)).2.2.1,
   (C1_tenant_isolation c1db c1owner c1params 5 5 5 1 2 rfl (by decide)).2.2.2.1,
   (C1_tenant_isolation c1db c1owner c1params 5 5 5 1 2 rfl (by decide)).2.2.2.2.1⟩

end Bento
